import Mathlib

/-!
Shallow embedding of `src/infrastructure/lambdas/streaming-agent/handler.py`
(the streaming relay lambda), the component the specification models.

The handler consumes an SQS-triggered lambda event, validates the message body,
invokes the Bedrock AgentCore runtime, and relays the response — either a
Server-Sent-Events stream or a buffered JSON payload — as discrete events
published to an AppSync Events channel.

External collaborators (the `json` module's parser, the AgentCore runtime,
the urllib3 network call) are modelled as components of a `World` record; the
handler's own control flow, including which Python expressions can raise and
which exceptions are caught, is translated statement by statement from the
source.  Python values decoded from JSON are modelled by the inductive `Json`
(JSON `null` is Python `None`); the dynamically-typed operations the handler
performs on them (`in`, subscription, `.get`, truthiness, `str()`) are given
their Python semantics, including the `TypeError`/`AttributeError`/`KeyError`
they raise on unexpected operand types.
-/

set_option autoImplicit false

namespace StreamingAgent

/-- A value produced by `json.loads` (JSON `null` is Python `None`).
Numeric leaves are restricted to integers; no claim involves numerics. -/
inductive Json where
  | null : Json
  | bool : Bool → Json
  | num  : Int → Json
  | str  : String → Json
  | arr  : List Json → Json
  | obj  : List (String × Json) → Json

/-- Python exceptions that the handler's own expressions can raise. -/
inductive PyErr where
  /-- Python `TypeError`, e.g. `"k" in 5` or string subscription with a string key. -/
  | typeError : String → PyErr
  /-- Python `AttributeError`, e.g. `.get` on a non-dict. -/
  | attributeError : String → PyErr
  /-- Python `KeyError` from dict subscription with a missing key. -/
  | keyError : String → PyErr
  /-- Python `ValueError` raised explicitly by the handler. -/
  | valueError : String → PyErr
  /-- Python `json.JSONDecodeError` from `json.loads`. -/
  | jsonDecodeError : String → PyErr
  /-- Exception propagating out of `bedrock_client.invoke_agent_runtime`. -/
  | upstreamError : String → PyErr
deriving DecidableEq, Repr

/-- First-match association lookup: Python dict access on the (unique-keyed)
key/value list backing a `Json.obj`. -/
def jlookup (fields : List (String × Json)) (k : String) : Option Json :=
  match fields with
  | [] => none
  | (k', v) :: rest => if k' = k then some v else jlookup rest k

/-- Whether the first list is a prefix of the second (Python `str.startswith`). -/
def prefixChars : List Char → List Char → Bool
  | [], _ => true
  | _ :: _, [] => false
  | c :: cs, d :: ds => c = d && prefixChars cs ds

/-- Substring containment on character lists (Python `needle in hay` for
strings). -/
def infixChars (needle : List Char) : List Char → Bool
  | [] => needle.isEmpty
  | hay@(_ :: rest) => prefixChars needle hay || infixChars needle rest

/-- Python `hay.startswith(needle)`. -/
def pyStartsWith (hay needle : String) : Bool :=
  prefixChars needle.toList hay.toList

/-- Python `needle in hay` for strings (substring test). -/
def pyStrContains (hay needle : String) : Bool :=
  infixChars needle.toList hay.toList

/-- Python `s[n:]`. -/
def pySliceFrom (s : String) (n : Nat) : String :=
  String.mk (s.toList.drop n)

/-- Python truthiness of a JSON-decoded value: `None`, `False`, `0`, `""`,
`[]` and `{}` are falsy, everything else truthy. -/
def truthy : Json → Bool
  | Json.null => false
  | Json.bool b => b
  | Json.num n => n ≠ 0
  | Json.str s => s ≠ ""
  | Json.arr l => !l.isEmpty
  | Json.obj l => !l.isEmpty

/-- Python `k in x` for a JSON-decoded `x`: key test on dicts, substring test
on strings, element test on lists (a list element equals the string `k` only
if it is that string), `TypeError` on scalars. -/
def pyContains (k : String) : Json → Except PyErr Bool
  | Json.obj fields => Except.ok (fields.any (fun p => p.1 = k))
  | Json.str s => Except.ok (pyStrContains s k)
  | Json.arr l =>
      Except.ok (l.any (fun j => match j with
        | Json.str s => s = k
        | _ => false))
  | _ => Except.error (PyErr.typeError "argument of type is not iterable")

/-- Python `x[k]` with a string key: dict lookup (`KeyError` when absent),
`TypeError` on every non-dict. -/
def pyGetItem (x : Json) (k : String) : Except PyErr Json :=
  match x with
  | Json.obj fields =>
      match jlookup fields k with
      | some v => Except.ok v
      | none => Except.error (PyErr.keyError k)
  | _ => Except.error (PyErr.typeError "indices must be integers")

/-- Python `x.get(k, default)`: defaulting dict lookup, `AttributeError` on
every non-dict (only dicts have `.get`). -/
def pyGet (x : Json) (k : String) (default : Json) : Except PyErr Json :=
  match x with
  | Json.obj fields => Except.ok ((jlookup fields k).getD default)
  | _ => Except.error (PyErr.attributeError "object has no attribute get")

/-- Python `str()` of a JSON-decoded value, as interpolated by an f-string.
Container rendering follows `repr` recursively; string escaping inside
`reprStr` is elided (no claim exercises it). -/
def pyStr : Json → String
  | Json.null => "None"
  | Json.bool true => "True"
  | Json.bool false => "False"
  | Json.num n => toString n
  | Json.str s => s
  | Json.arr l =>
      "[" ++ String.intercalate ", " (l.attach.map (fun x => reprStr x.1)) ++ "]"
  | Json.obj l =>
      "\x7b" ++ String.intercalate ", "
        (l.attach.map (fun x => "\x27" ++ x.1.1 ++ "\x27: " ++ reprStr x.1.2)) ++ "\x7d"
where
  /-- Python `repr()` of a JSON-decoded value (quotes strings). -/
  reprStr : Json → String
    | Json.null => "None"
    | Json.bool true => "True"
    | Json.bool false => "False"
    | Json.num n => toString n
    | Json.str s => "\x27" ++ s ++ "\x27"
    | Json.arr l =>
        "[" ++ String.intercalate ", " (l.attach.map (fun x => reprStr x.1)) ++ "]"
    | Json.obj l =>
        "\x7b" ++ String.intercalate ", "
          (l.attach.map (fun x => "\x27" ++ x.1.1 ++ "\x27: " ++ reprStr x.1.2)) ++ "\x7d"
  decreasing_by
    · simp_wf
      have h := List.sizeOf_lt_of_mem x.2
      omega
    · simp_wf
      obtain ⟨⟨k, v⟩, hm⟩ := x
      have h := List.sizeOf_lt_of_mem hm
      simp only [Prod.mk.sizeOf_spec] at h
      simp only [Subtype.coe_mk] at *
      simp at *
      omega

/-- The outcome of one urllib3 `http.request` call made by
`publish_to_appsync`: either the call raises, or it yields an HTTP status and
response body. -/
inductive NetOutcome where
  /-- The network call (or response decoding) raises an exception. -/
  | raise : String → NetOutcome
  /-- The network call returns a status code and a body. -/
  | response : Nat → String → NetOutcome

/-- What one call to `publish_to_appsync` amounted to, as the function's
control flow resolves it — the function returns normally in every case. -/
inductive PublishOutcome where
  /-- The env var EVENT_API_ENDPOINT is unset: the error is logged and the
  function returns without a network call. -/
  | notConfigured : PublishOutcome
  /-- HTTP 200. -/
  | success : PublishOutcome
  /-- Non-200 status: logged via `logger.error`, then normal return. -/
  | failedStatus : Nat → PublishOutcome
  /-- An exception was caught by the `except Exception` handler and logged. -/
  | caughtError : String → PublishOutcome
deriving DecidableEq, Repr

/-- The body of `publish_to_appsync` inside its `try`: the part that could
raise.  Missing endpoint returns early (no call); otherwise the network
outcome decides: an exception propagates to the `except`, a response is
status-checked (non-200 is only logged). -/
def publish_body (endpoint : Option String) (net : NetOutcome) :
    Except String PublishOutcome :=
  match endpoint with
  | none => Except.ok PublishOutcome.notConfigured
  | some _ =>
      match net with
      | NetOutcome.raise m => Except.error m
      | NetOutcome.response status _ =>
          Except.ok (if status = 200 then PublishOutcome.success
                     else PublishOutcome.failedStatus status)

/-- The function `publish_to_appsync`: the `try` body wrapped in `except Exception as e:
logger.error(...)`.  Total — every exception from the body resolves to a
logged `caughtError` value, never a raise to the caller. -/
def publish_to_appsync (endpoint : Option String) (net : NetOutcome) :
    PublishOutcome :=
  match publish_body endpoint net with
  | Except.error m => PublishOutcome.caughtError m
  | Except.ok r => r

/-- One invocation of `publish_to_appsync` as recorded on the relay trace:
the channel and the `events` list of the POSTed payload.  The code sends
`events = [json.dumps(event_data)]`; the entry records the `event_data`
dicts themselves, serialization being injective. -/
structure ChannelMessage where
  channel : String
  events : List Json

/-- The semantic event the classifier extracted from one decoded record. -/
inductive SemEv where
  /-- The `contentBlockDelta` branch: the value found under `delta["text"]`. -/
  | content : Json → SemEv
  /-- The `contentBlockStart` branch: the truthy value under `toolUse.get("name")`. -/
  | toolUse : Json → SemEv

/-- The classifier embedded from the loop body of `lambda_handler`
(lines 117–141): given the `json.loads` result of one `data: ` line, decide
which event (if any) is published.  Each dynamically-typed operation carries
its Python semantics, so ill-shaped records raise exactly where the Python
would (`in` on a scalar, subscription of a non-dict, `.get` on a non-dict);
such exceptions are NOT caught by the `except json.JSONDecodeError` handler
and abort the handler. -/
def classify (event_data : Json) : Except PyErr (Option SemEv) :=
  match event_data with
  | Json.obj fields =>
      -- `isinstance(event_data, dict) and "event" in event_data`
      match jlookup fields "event" with
      | none => Except.ok none
      | some ev => do
          let hasDelta ← pyContains "contentBlockDelta" ev
          if hasDelta then do
            let cbd ← pyGetItem ev "contentBlockDelta"
            let delta ← pyGet cbd "delta" (Json.obj [])
            let hasText ← pyContains "text" delta
            if hasText then do
              let t ← pyGetItem delta "text"
              pure (some (SemEv.content t))
            else
              pure none
          else do
            let hasStart ← pyContains "contentBlockStart" ev
            if hasStart then do
              let cbs ← pyGetItem ev "contentBlockStart"
              let start ← pyGet cbs "start" (Json.obj [])
              let hasTool ← pyContains "toolUse" start
              if hasTool then do
                let tu ← pyGetItem start "toolUse"
                let name ← pyGet tu "name" Json.null
                if truthy name then pure (some (SemEv.toolUse name))
                else pure none
              else
                pure none
            else
              pure none
  | _ => Except.ok none

/-- The `event_data` dict published for a classified event (loop body,
lines 125–141). -/
def eventDict (sessionId : Json) : SemEv → Json
  | SemEv.content t =>
      Json.obj [("type", Json.str "content"), ("sessionId", sessionId),
                ("text", t)]
  | SemEv.toolUse name =>
      Json.obj [("type", Json.str "tool_use"), ("sessionId", sessionId),
                ("text", Json.str
                  ("ðŸ”§ Using tool: " ++ pyStr name))]

/-- The `start` event dict of the buffered path (lines 155–158). -/
def startDict (sessionId : Json) : Json :=
  Json.obj [("type", Json.str "start"), ("sessionId", sessionId)]

/-- The `content` event dict of the buffered path, carrying the full parsed
payload under the key `content` (lines 161–165). -/
def bufferedContentDict (sessionId : Json) (data : Json) : Json :=
  Json.obj [("type", Json.str "content"), ("sessionId", sessionId),
            ("content", data)]

/-- The `end` event dict of the buffered path (lines 168–171). -/
def endDict (sessionId : Json) : Json :=
  Json.obj [("type", Json.str "end"), ("sessionId", sessionId)]

/-- Line 97: `channel_name = f"chat/" + str(session_id)` of the source, the
f-string interpolation made explicit. -/
def channelName (session_id : Json) : String :=
  "chat/" ++ pyStr session_id

/-- The `type` field of the single event a recorded publish carries. -/
def msgType (m : ChannelMessage) : Option Json :=
  match m.events with
  | [Json.obj fs] => jlookup fs "type"
  | _ => none

/-- The upstream runtime's response: its `contentType` (absent modelled as
`""`, matching `response.get("contentType", "")`) and its body, viewed as
decoded non-empty lines for `iter_lines` and as one string for `read()`. -/
structure UpstreamResponse where
  contentType : String
  lines : List String
  body : String

/-- External collaborators of one handler run. -/
structure World where
  /-- The value of the env var EVENT_API_ENDPOINT, read with a defaulting get. -/
  eventApiEndpoint : Option String
  /-- The `json.loads` parser: a JSON value, or a `JSONDecodeError` message. -/
  jsonLoads : String → Except String Json
  /-- The result of `bedrock_client.invoke_agent_runtime`: a response, or
  the message of the exception the call raises. -/
  invokeResult : Except String UpstreamResponse
  /-- Outcome of the k-th publish network call of the run (0-based). -/
  publishNet : Nat → NetOutcome

/-- One publish step: the recorded invocation paired with how its network
call resolved (the code discards this outcome). -/
def publishStep (w : World) (idx : Nat) (channel : String) (ed : Json) :
    ChannelMessage × PublishOutcome :=
  (⟨channel, [ed]⟩, publish_to_appsync w.eventApiEndpoint (w.publishNet idx))

/-- The streaming loop (lines 105–146): fold over the stream's lines,
skipping empty lines and lines without the `"data: "` prefix, catching
`json.JSONDecodeError` per line, publishing each classified event, and
aborting the run on any classification exception.  `idx` counts publish
calls already made.  Returns the publish calls in order and `ok` on clean
stream exhaustion. -/
def processLines (w : World) (channel : String) (sessionId : Json)
    (idx : Nat) :
    List String → List (ChannelMessage × PublishOutcome) × Except PyErr Unit
  | [] => ([], Except.ok ())
  | line :: rest =>
      if line = "" then processLines w channel sessionId idx rest
      else if pyStartsWith line "data: " then
        -- `event_json = line[6:]` (strip the `"data: "` prefix)
        match w.jsonLoads (pySliceFrom line 6) with
        | Except.error _ =>
            -- `except json.JSONDecodeError`: logged, loop continues
            processLines w channel sessionId idx rest
        | Except.ok event_data =>
            match classify event_data with
            | Except.error e => ([], Except.error e)
            | Except.ok none => processLines w channel sessionId idx rest
            | Except.ok (some sev) =>
                let res := processLines w channel sessionId (idx + 1) rest
                (publishStep w idx channel (eventDict sessionId sev) :: res.1,
                 res.2)
      else processLines w channel sessionId idx rest

/-- The relay phase (lines 99–173), after a successful upstream invocation:
branch on whether `"text/event-stream" in response.get("contentType", "")`;
stream responses run the line loop, buffered responses `json.loads` the whole
body (an uncaught raise if it fails) and publish the start/content/end
triple. -/
def relay_response (w : World) (channel : String) (sessionId : Json)
    (resp : UpstreamResponse) :
    List (ChannelMessage × PublishOutcome) × Except PyErr Unit :=
  if pyStrContains resp.contentType "text/event-stream" then
    processLines w channel sessionId 0 resp.lines
  else
    match w.jsonLoads resp.body with
    | Except.error m => ([], Except.error (PyErr.jsonDecodeError m))
    | Except.ok response_data =>
        ([publishStep w 0 channel (startDict sessionId),
          publishStep w 1 channel (bufferedContentDict sessionId response_data),
          publishStep w 2 channel (endDict sessionId)],
         Except.ok ())

/-- The observable trace of one handler run. -/
structure RunTrace where
  /-- The `publish_to_appsync` calls made, in order, with their outcomes. -/
  published : List (ChannelMessage × PublishOutcome)
  /-- Whether `invoke_agent_runtime` was called. -/
  invoked : Bool
  /-- Normal completion, or the exception that propagated out. -/
  outcome : Except PyErr Unit

/-- Lines 85–173: invoke the upstream runtime (an exception propagates with
nothing published), derive the channel name `f"chat/{session_id}"`, and relay
the response. -/
def invoke_and_relay (w : World) (session_id : Json) : RunTrace :=
  match w.invokeResult with
  | Except.error m => ⟨[], true, Except.error (PyErr.upstreamError m)⟩
  | Except.ok resp =>
      let res := relay_response w (channelName session_id) session_id resp
      ⟨res.1, true, res.2⟩

/-- The inbound lambda event: `none` models the absence of the Records key;
each record is reduced to its body string (the only field the handler
reads). -/
structure LambdaEvent where
  Records : Option (List String)

/-- The `lambda_handler` function (lines 57–173): record extraction and validation
(lines 69–83), then invoke-and-relay.  `body.get(...)` carries its Python
semantics (an `AttributeError` when the parsed body is not a dict), and the
two `raise ValueError` statements abort with nothing published and no
upstream call. -/
def lambda_handler (w : World) (event : LambdaEvent) : RunTrace :=
  match event.Records with
  | none =>
      ⟨[], false, Except.error (PyErr.valueError "No SQS records found in event")⟩
  | some [] =>
      ⟨[], false, Except.error (PyErr.valueError "No SQS records found in event")⟩
  | some (recordBody :: _) =>
      match w.jsonLoads recordBody with
      | Except.error m => ⟨[], false, Except.error (PyErr.jsonDecodeError m)⟩
      | Except.ok body =>
          match pyGet body "prompt" Json.null with
          | Except.error e => ⟨[], false, Except.error e⟩
          | Except.ok prompt =>
              match pyGet body "runtimeSessionId" Json.null with
              | Except.error e => ⟨[], false, Except.error e⟩
              | Except.ok session_id =>
                  if !truthy prompt || !truthy session_id then
                    ⟨[], false, Except.error (PyErr.valueError
                      "Missing required fields: prompt and runtimeSessionId")⟩
                  else
                    invoke_and_relay w session_id

/-- The wire form of a well-formed content-delta record:
`{"event":{"contentBlockDelta":{"delta":{"text": t}}}}`. -/
def deltaRecord (t : Json) : Json :=
  Json.obj [("event", Json.obj [("contentBlockDelta",
    Json.obj [("delta", Json.obj [("text", t)])])])]

/-- The wire form of a tool-use record:
`{"event":{"contentBlockStart":{"start":{"toolUse":{"name": n}}}}}`. -/
def toolRecord (n : Json) : Json :=
  Json.obj [("event", Json.obj [("contentBlockStart",
    Json.obj [("start", Json.obj [("toolUse", Json.obj [("name", n)])])])])]

/-- Whether a recorded publish carries a single event dict whose `type`
field is the string `t`. -/
def hasType (t : String) (m : ChannelMessage) : Bool :=
  match m.events with
  | [Json.obj fs] =>
      match jlookup fs "type" with
      | some (Json.str s) => s = t
      | _ => false
  | _ => false

/-- How many of the run's publishes carry an event of `type` `t`. -/
def countType (t : String) (msgs : List (ChannelMessage × PublishOutcome)) :
    Nat :=
  msgs.countP (fun p => hasType t p.1)

/-! ### Concrete runs used as witnesses and counterexamples -/

/-- A 33-character session id (the downstream runtime's documented
minimum). -/
def sid33 : String := "abcdefghijklmnopqrstuvwxyz0123456"

/-- A well-formed SQS message body with a 33-char session id. -/
def okBody : String :=
  "\x7b\"prompt\": \"hi\", \"runtimeSessionId\": \"" ++ sid33 ++ "\"\x7d"

/-- The parse of `okBody`. -/
def okBodyJson : Json :=
  Json.obj [("prompt", Json.str "hi"), ("runtimeSessionId", Json.str sid33)]

/-- A `json.loads` model that parses `okBody` and rejects everything else. -/
def okBodyLoader : String → Except String Json :=
  fun s => if s = okBody then Except.ok okBodyJson
           else Except.error "Expecting value"

/-- C1 counterexample world: a valid request answered by an event-stream
response whose stream is empty. -/
def emptyStreamWorld : World :=
  ⟨some "https://events.example/event", okBodyLoader,
   Except.ok ⟨"text/event-stream; charset=utf-8", [], ""⟩,
   fun _ => NetOutcome.response 200 "ok"⟩

/-- The lambda event carrying `okBody` as its single SQS record. -/
def okEvent : LambdaEvent := ⟨some [okBody]⟩

/-- A streaming response with one well-formed content-delta line. -/
def oneLineStreamResp : UpstreamResponse :=
  ⟨"text/event-stream",
   ["data: \x7b\"event\": \x7b\"contentBlockDelta\": \x7b\"delta\": \x7b\"text\": \"Hello\"\x7d\x7d\x7d\x7d"],
   ""⟩

/-- Loader for `oneLineStreamResp`'s single line payload. -/
def helloLoader : String → Except String Json :=
  fun s =>
    if s = "\x7b\"event\": \x7b\"contentBlockDelta\": \x7b\"delta\": \x7b\"text\": \"Hello\"\x7d\x7d\x7d\x7d"
    then Except.ok (deltaRecord (Json.str "Hello"))
    else Except.error "Expecting value"

/-- C1 witness world, streaming side. -/
def streamWorld : World :=
  ⟨some "ep", helloLoader, Except.ok oneLineStreamResp,
   fun _ => NetOutcome.response 200 "ok"⟩

/-- A buffered (non-streaming) upstream response `{"answer": "hello"}`. -/
def bufResp : UpstreamResponse :=
  ⟨"application/json", [], "\x7b\"answer\": \"hello\"\x7d"⟩

/-- The parse of `bufResp.body`. -/
def bufData : Json := Json.obj [("answer", Json.str "hello")]

/-- Loader that parses `bufResp.body` only. -/
def bufLoader : String → Except String Json :=
  fun s => if s = "\x7b\"answer\": \"hello\"\x7d" then Except.ok bufData
           else Except.error "Expecting value"

/-- C1 witness world, buffered side. -/
def bufWorld : World :=
  ⟨some "ep", bufLoader, Except.ok bufResp,
   fun _ => NetOutcome.response 200 "ok"⟩

/-- C2 world: the upstream invocation itself raises. -/
def invokeFailWorld : World :=
  ⟨some "ep", okBodyLoader, Except.error "Connection timeout",
   fun _ => NetOutcome.response 200 "ok"⟩

/-- An SQS message body whose session id has length 3. -/
def shortSidBody : String :=
  "\x7b\"prompt\": \"hi\", \"runtimeSessionId\": \"abc\"\x7d"

/-- The parse of `shortSidBody`. -/
def shortSidBodyJson : Json :=
  Json.obj [("prompt", Json.str "hi"), ("runtimeSessionId", Json.str "abc")]

/-- C3 world: valid-but-short session id, streaming response. -/
def shortSidWorld : World :=
  ⟨some "ep",
   fun s => if s = shortSidBody then Except.ok shortSidBodyJson
            else Except.error "Expecting value",
   Except.ok ⟨"text/event-stream", [], ""⟩,
   fun _ => NetOutcome.response 200 "ok"⟩

/-- The lambda event carrying `shortSidBody`. -/
def shortSidEvent : LambdaEvent := ⟨some [shortSidBody]⟩

/-- A well-formed content-delta line for the letter `A`, and one for `B`. -/
def lineA : String :=
  "data: \x7b\"event\": \x7b\"contentBlockDelta\": \x7b\"delta\": \x7b\"text\": \"A\"\x7d\x7d\x7d\x7d"

/-- Second well-formed content-delta line. -/
def lineB : String :=
  "data: \x7b\"event\": \x7b\"contentBlockDelta\": \x7b\"delta\": \x7b\"text\": \"B\"\x7d\x7d\x7d\x7d"

/-- Loader for `lineA`/`lineB` payloads; every other string (e.g. the
malformed `oops`) is a decode error. -/
def abLoader : String → Except String Json :=
  fun s =>
    if s = pySliceFrom lineA 6 then Except.ok (deltaRecord (Json.str "A"))
    else if s = pySliceFrom lineB 6 then Except.ok (deltaRecord (Json.str "B"))
    else Except.error "Expecting value"

/-- C6/C7 witness world: streams built from `lineA`/`lineB`. -/
def abWorld : World :=
  ⟨some "ep", abLoader, Except.ok ⟨"text/event-stream", [lineA, lineB], ""⟩,
   fun _ => NetOutcome.response 200 "ok"⟩

/-- A malformed data-prefixed line: `oops` is not JSON. -/
def badLine : String := "data: oops"

/-- C8 counterexample world: buffered response whose body is not JSON. -/
def badBufWorld : World :=
  ⟨some "ep", okBodyLoader, Except.ok ⟨"application/json", [], "oops"⟩,
   fun _ => NetOutcome.response 200 "ok"⟩

/-- An SQS message body with no `prompt` field at all. -/
def noPromptBody : String := "\x7b\"runtimeSessionId\": \"abc\"\x7d"

/-- The parse of `noPromptBody`. -/
def noPromptBodyJson : Json :=
  Json.obj [("runtimeSessionId", Json.str "abc")]

/-- C9 witness world. -/
def noPromptWorld : World :=
  ⟨some "ep",
   fun s => if s = noPromptBody then Except.ok noPromptBodyJson
            else Except.error "Expecting value",
   Except.ok ⟨"text/event-stream", [], ""⟩,
   fun _ => NetOutcome.response 200 "ok"⟩

/-! ### Helper lemmas -/

lemma pyStartsWith_ne_empty {s : String} (h : pyStartsWith s "data: " = true) :
    s ≠ "" := by
  intro he
  subst he
  exact absurd h (by decide)

/-- Every publish the streaming loop records is a `publishStep` for a
classified `content` or `tool_use` event on the loop's channel. -/
lemma processLines_mem (w : World) (ch : String) (sid : Json) :
    ∀ (ls : List String) (idx : Nat) (p : ChannelMessage × PublishOutcome),
      p ∈ (processLines w ch sid idx ls).1 →
      ∃ (sev : SemEv) (i : Nat), p = publishStep w i ch (eventDict sid sev) := by
  intro ls
  induction ls with
  | nil =>
      intro idx p hp
      simp [processLines] at hp
  | cons l rest ih =>
      intro idx p hp
      rw [processLines] at hp
      split at hp
      · exact ih _ _ hp
      · split at hp
        · split at hp
          · exact ih _ _ hp
          · split at hp
            · simp at hp
            · exact ih _ _ hp
            · rename_i sev _
              simp only [List.mem_cons] at hp
              rcases hp with rfl | hp
              · exact ⟨sev, idx, rfl⟩
              · exact ih _ _ hp
        · exact ih _ _ hp

lemma msgType_eventDict (w : World) (i : Nat) (ch : String) (sid : Json)
    (sev : SemEv) :
    msgType (publishStep w i ch (eventDict sid sev)).1
      = some (Json.str "content")
    ∨ msgType (publishStep w i ch (eventDict sid sev)).1
      = some (Json.str "tool_use") := by
  cases sev with
  | content t => left; rfl
  | toolUse n => right; rfl

lemma invoke_and_relay_invoked (w : World) (sid : Json) :
    (invoke_and_relay w sid).invoked = true := by
  cases h : w.invokeResult <;> simp [invoke_and_relay, h]

lemma update_pn_jsonLoads (w : World) (pn : Nat → NetOutcome) :
    ({w with publishNet := pn} : World).jsonLoads = w.jsonLoads := rfl

lemma update_pn_invokeResult (w : World) (pn : Nat → NetOutcome) :
    ({w with publishNet := pn} : World).invokeResult = w.invokeResult := rfl

/-- The streaming loop's recorded publish payloads and its final outcome do
not depend on how the publish network calls resolve: the code discards every
`publish_to_appsync` result. -/
lemma processLines_pn (w : World) (pn : Nat → NetOutcome) (ch : String)
    (sid : Json) :
    ∀ (ls : List String) (idx : Nat),
      ((processLines {w with publishNet := pn} ch sid idx ls).1.map Prod.fst
        = (processLines w ch sid idx ls).1.map Prod.fst)
      ∧ ((processLines {w with publishNet := pn} ch sid idx ls).2
        = (processLines w ch sid idx ls).2) := by
  intro ls
  induction ls with
  | nil => intro idx; exact ⟨rfl, rfl⟩
  | cons l rest ih =>
      intro idx
      rw [processLines, processLines]
      by_cases hl : l = ""
      · rw [if_pos hl, if_pos hl]
        exact ih idx
      · rw [if_neg hl, if_neg hl]
        by_cases hs : pyStartsWith l "data: " = true
        · rw [if_pos hs, if_pos hs, update_pn_jsonLoads]
          cases hjl : w.jsonLoads (pySliceFrom l 6) with
          | error m => exact ih idx
          | ok ed =>
              dsimp only
              cases hc : classify ed with
              | error e => exact ⟨rfl, rfl⟩
              | ok osev =>
                  cases osev with
                  | none => exact ih idx
                  | some sev =>
                      try dsimp only
                      refine ⟨?_, (ih (idx + 1)).2⟩
                      simp only [List.map_cons]
                      rw [(ih (idx + 1)).1]
                      rfl
        · rw [if_neg hs, if_neg hs]
          exact ih idx

/-- Same independence for the whole relay phase. -/
lemma relay_response_pn (w : World) (pn : Nat → NetOutcome) (ch : String)
    (sid : Json) (resp : UpstreamResponse) :
    ((relay_response {w with publishNet := pn} ch sid resp).1.map Prod.fst
      = (relay_response w ch sid resp).1.map Prod.fst)
    ∧ ((relay_response {w with publishNet := pn} ch sid resp).2
      = (relay_response w ch sid resp).2) := by
  rw [relay_response, relay_response]
  by_cases hct : pyStrContains resp.contentType "text/event-stream" = true
  · rw [if_pos hct, if_pos hct]
    exact processLines_pn w pn ch sid resp.lines 0
  · rw [if_neg hct, if_neg hct, update_pn_jsonLoads]
    cases hjl : w.jsonLoads resp.body with
    | error m => exact ⟨rfl, rfl⟩
    | ok d => dsimp only; exact ⟨rfl, rfl⟩

/-- Same independence for the full handler. -/
lemma lambda_handler_pn (w : World) (pn : Nat → NetOutcome)
    (ev : LambdaEvent) :
    ((lambda_handler {w with publishNet := pn} ev).published.map Prod.fst
      = (lambda_handler w ev).published.map Prod.fst)
    ∧ ((lambda_handler {w with publishNet := pn} ev).outcome
      = (lambda_handler w ev).outcome)
    ∧ ((lambda_handler {w with publishNet := pn} ev).invoked
      = (lambda_handler w ev).invoked) := by
  rw [lambda_handler, lambda_handler]
  cases ev.Records with
  | none => exact ⟨rfl, rfl, rfl⟩
  | some records =>
      cases records with
      | nil => exact ⟨rfl, rfl, rfl⟩
      | cons r rest =>
          try dsimp only
          rw [update_pn_jsonLoads]
          cases hjl : w.jsonLoads r with
          | error m => exact ⟨rfl, rfl, rfl⟩
          | ok body =>
              try dsimp only
              cases hp : pyGet body "prompt" Json.null with
              | error e => exact ⟨rfl, rfl, rfl⟩
              | ok prompt =>
                  try dsimp only
                  cases hsid : pyGet body "runtimeSessionId" Json.null with
                  | error e => exact ⟨rfl, rfl, rfl⟩
                  | ok session_id =>
                      try dsimp only
                      by_cases hval : (!truthy prompt || !truthy session_id) = true
                      · rw [if_pos hval, if_pos hval]
                        exact ⟨rfl, rfl, rfl⟩
                      · rw [if_neg hval, if_neg hval]
                        rw [invoke_and_relay, invoke_and_relay,
                            update_pn_invokeResult]
                        cases hinv : w.invokeResult with
                        | error m => exact ⟨rfl, rfl, rfl⟩
                        | ok resp =>
                            try dsimp only
                            rw [← hinv]
                            have h := relay_response_pn w pn
                              (channelName session_id) session_id resp
                            exact ⟨h.1, h.2, rfl⟩

/-- A classified event dict is typed `content` or `tool_use` — never
`start`, `end` or `error`. -/
lemma eventDict_types (w : World) (i : Nat) (ch : String) (sid : Json)
    (sev : SemEv) :
    (hasType "content" (publishStep w i ch (eventDict sid sev)).1
      || hasType "tool_use" (publishStep w i ch (eventDict sid sev)).1) = true
    ∧ hasType "start" (publishStep w i ch (eventDict sid sev)).1 = false
    ∧ hasType "end" (publishStep w i ch (eventDict sid sev)).1 = false
    ∧ hasType "error" (publishStep w i ch (eventDict sid sev)).1 = false := by
  cases sev <;> exact ⟨rfl, rfl, rfl, rfl⟩

/-- Classifying a well-formed content-delta record yields exactly one
`ContentDelta`, whatever the text value (empty included). -/
lemma classify_deltaRecord (t : Json) :
    classify (deltaRecord t) = Except.ok (some (SemEv.content t)) := rfl

/-- Classifying a well-formed tool-use record with a truthy name yields
exactly one `ToolUse`. -/
lemma classify_toolRecord (n : Json) (h : truthy n = true) :
    classify (toolRecord n) = Except.ok (some (SemEv.toolUse n)) := by
  have hred : classify (toolRecord n)
      = if truthy n = true then Except.ok (some (SemEv.toolUse n))
        else Except.ok none := rfl
  rw [hred, if_pos h]

/-- The buffered path with a parsable body publishes exactly the
start/content/end triple on the given channel. -/
lemma relay_buffered (w : World) (ch : String) (sid : Json)
    (resp : UpstreamResponse) (d : Json)
    (hct : pyStrContains resp.contentType "text/event-stream" = false)
    (hjl : w.jsonLoads resp.body = Except.ok d) :
    relay_response w ch sid resp =
      ([publishStep w 0 ch (startDict sid),
        publishStep w 1 ch (bufferedContentDict sid d),
        publishStep w 2 ch (endDict sid)],
       Except.ok ()) := by
  rw [relay_response, if_neg (by simp [hct]), hjl]

/-- Inserting one data-prefixed line that fails to parse changes nothing:
the run publishes the same steps and ends the same way as with the line
removed. -/
lemma processLines_skip_bad (w : World) (ch : String) (sid : Json)
    (bad : String) (m : String)
    (hstart : pyStartsWith bad "data: " = true)
    (hbad : w.jsonLoads (pySliceFrom bad 6) = Except.error m) :
    ∀ (xs : List String) (idx : Nat) (ys : List String),
      processLines w ch sid idx (xs ++ bad :: ys)
        = processLines w ch sid idx (xs ++ ys) := by
  intro xs
  induction xs with
  | nil =>
      intro idx ys
      simp only [List.nil_append]
      rw [processLines, if_neg (pyStartsWith_ne_empty hstart), if_pos hstart,
          hbad]
  | cons x xs ih =>
      intro idx ys
      simp only [List.cons_append]
      rw [processLines, processLines]
      by_cases hx : x = ""
      · rw [if_pos hx, if_pos hx]
        exact ih idx ys
      · rw [if_neg hx, if_neg hx]
        by_cases hxs : pyStartsWith x "data: " = true
        · rw [if_pos hxs, if_pos hxs]
          cases hjl : w.jsonLoads (pySliceFrom x 6) with
          | error m2 => exact ih idx ys
          | ok ed =>
              try dsimp only
              cases hc : classify ed with
              | error e => rfl
              | ok osev =>
                  cases osev with
                  | none => exact ih idx ys
                  | some sev =>
                      try dsimp only
                      rw [ih (idx + 1) ys]
        · rw [if_neg hxs, if_neg hxs]
          exact ih idx ys

/-- A stream of N well-formed content-delta lines publishes exactly the N
content events, in line order, and exhausts cleanly. -/
lemma processLines_all_deltas (w : World) (ch : String) (sid : Json) :
    ∀ (ps : List (String × Json)) (idx : Nat),
      (∀ p ∈ ps, pyStartsWith p.1 "data: " = true ∧
         w.jsonLoads (pySliceFrom p.1 6) = Except.ok (deltaRecord p.2)) →
      ((processLines w ch sid idx (ps.map Prod.fst)).1.map Prod.fst
         = ps.map (fun p =>
             ChannelMessage.mk ch [eventDict sid (SemEv.content p.2)]))
      ∧ (processLines w ch sid idx (ps.map Prod.fst)).2 = Except.ok () := by
  intro ps
  induction ps with
  | nil => intro idx h; exact ⟨rfl, rfl⟩
  | cons p ps ih =>
      intro idx h
      obtain ⟨hstart, hload⟩ := h p (List.mem_cons_self p ps)
      have hrest := ih (idx + 1) (fun q hq => h q (List.mem_cons_of_mem _ hq))
      simp only [List.map_cons]
      rw [processLines, if_neg (pyStartsWith_ne_empty hstart), if_pos hstart,
          hload]
      try dsimp only
      rw [classify_deltaRecord]
      try dsimp only
      refine ⟨?_, hrest.2⟩
      simp only [List.map_cons]
      rw [hrest.1]
      rfl

/-- Every publish the relay phase records goes to the relay's channel and
carries exactly one event in its `events` array (batch size 1). -/
lemma relay_response_mem (w : World) (ch : String) (sid : Json)
    (resp : UpstreamResponse) :
    ∀ p ∈ (relay_response w ch sid resp).1,
      p.1.channel = ch ∧ p.1.events.length = 1 := by
  intro p hp
  rw [relay_response] at hp
  split at hp
  · obtain ⟨sev, i, rfl⟩ := processLines_mem w ch sid resp.lines 0 p hp
    exact ⟨rfl, rfl⟩
  · split at hp
    · simp at hp
    · simp only [List.mem_cons, List.mem_singleton, List.not_mem_nil,
        or_false] at hp
      rcases hp with rfl | rfl | rfl
      · exact ⟨rfl, rfl⟩
      · exact ⟨rfl, rfl⟩
      · exact ⟨rfl, rfl⟩

/-- Every event a run for session `sid` publishes goes to the channel
`channelName sid` (that is, `"chat/" + str(session_id)`). -/
lemma invoke_and_relay_channel (w : World) (sid : Json) :
    ∀ p ∈ (invoke_and_relay w sid).published,
      p.1.channel = channelName sid := by
  intro p hp
  rw [invoke_and_relay] at hp
  split at hp
  · simp at hp
  · exact (relay_response_mem w (channelName sid) sid _ p hp).1

/-! ### Claim theorems -/

/-- C2 counterexample: a valid request whose upstream invocation raises
`"Connection timeout"`.  The exception propagates out of the handler and the
published trace is empty — in particular no `error` event carrying the
message is published to the session channel, contrary to the claim. -/
theorem C2_counterexample :
    lambda_handler invokeFailWorld okEvent
      = ⟨[], true, Except.error (PyErr.upstreamError "Connection timeout")⟩ := by
  rfl

/-- C2 (amended): when the upstream invocation itself raises, the exception
propagates out of the run and nothing at all is published for that run — no
start, content, tool_use, end, or error event. -/
theorem C2_upstream_exception_publishes_nothing :
    ∀ (w : World) (sid : Json) (m : String),
      w.invokeResult = Except.error m →
      invoke_and_relay w sid
        = ⟨[], true, Except.error (PyErr.upstreamError m)⟩ := by
  intro w sid m h
  rw [invoke_and_relay, h]

/-- C2 witness: the amended statement at the concrete failing world. -/
theorem C2_upstream_exception_publishes_nothing_witness :
    invoke_and_relay invokeFailWorld (Json.str sid33)
      = ⟨[], true, Except.error (PyErr.upstreamError "Connection timeout")⟩ :=
  C2_upstream_exception_publishes_nothing invokeFailWorld (Json.str sid33)
    "Connection timeout" rfl

/-- C3 counterexample: a request whose session id is `"abc"` (length 3 < 33)
with a non-empty prompt passes validation, and the upstream runtime IS
invoked — the handler has no minimum-length check. -/
theorem C3_counterexample :
    ("abc" : String).length = 3
    ∧ (lambda_handler shortSidWorld shortSidEvent).invoked = true := by
  exact ⟨rfl, rfl⟩

/-- C3 (amended): validation only checks that `prompt` and
`runtimeSessionId` are present and truthy; any such request — whatever the
session id's length — proceeds to invoke the upstream runtime. -/
theorem C3_no_length_validation :
    ∀ (w : World) (r : String) (rest : List String)
      (body prompt sid : Json),
      w.jsonLoads r = Except.ok body →
      pyGet body "prompt" Json.null = Except.ok prompt →
      pyGet body "runtimeSessionId" Json.null = Except.ok sid →
      truthy prompt = true → truthy sid = true →
      (lambda_handler w ⟨some (r :: rest)⟩).invoked = true := by
  intro w r rest body prompt sid hjl hp hs htp hts
  rw [lambda_handler]
  try dsimp only
  rw [hjl]
  try dsimp only
  rw [hp]
  try dsimp only
  rw [hs]
  try dsimp only
  rw [if_neg (by simp [htp, hts])]
  exact invoke_and_relay_invoked w sid

/-- C3 witness: the amended statement at the length-3 session id. -/
theorem C3_no_length_validation_witness :
    (lambda_handler shortSidWorld ⟨some [shortSidBody]⟩).invoked = true :=
  C3_no_length_validation shortSidWorld shortSidBody [] shortSidBodyJson
    (Json.str "hi") (Json.str "abc") rfl rfl rfl rfl rfl

/-- C4: the publisher never raises — a raising network call resolves to a
caught, logged failure value and a non-200 status to a logged status
failure — and the run's publish payload sequence and final outcome are
independent of how every publish network call resolves, so a failure at
event k of N still leaves events k+1..N attempted and published. -/
theorem C4_publish_fault_isolation :
    (∀ (e m : String), publish_to_appsync (some e) (NetOutcome.raise m)
        = PublishOutcome.caughtError m)
    ∧ (∀ (e b : String) (s : Nat), s ≠ 200 →
        publish_to_appsync (some e) (NetOutcome.response s b)
          = PublishOutcome.failedStatus s)
    ∧ (∀ (w : World) (pn : Nat → NetOutcome) (ev : LambdaEvent),
        ((lambda_handler {w with publishNet := pn} ev).published.map Prod.fst
          = (lambda_handler w ev).published.map Prod.fst)
        ∧ ((lambda_handler {w with publishNet := pn} ev).outcome
          = (lambda_handler w ev).outcome)) := by
  refine ⟨fun e m => rfl, fun e b s hs => ?_, fun w pn ev =>
    ⟨(lambda_handler_pn w pn ev).1, (lambda_handler_pn w pn ev).2.1⟩⟩
  simp [publish_to_appsync, publish_body, hs]

/-- C4 witness: the publish characterization at a raising call and at an
HTTP 500. -/
theorem C4_publish_fault_isolation_witness :
    publish_to_appsync (some "ep") (NetOutcome.raise "boom")
        = PublishOutcome.caughtError "boom"
    ∧ publish_to_appsync (some "ep") (NetOutcome.response 500 "err")
        = PublishOutcome.failedStatus 500 :=
  ⟨C4_publish_fault_isolation.1 "ep" "boom",
   C4_publish_fault_isolation.2.1 "ep" "err" 500 (by decide)⟩

/-- C9: a record body whose `prompt` or `runtimeSessionId` is missing or
falsy (e.g. empty) makes the handler raise
`ValueError("Missing required fields: prompt and runtimeSessionId")`
before the upstream call: the trace shows no invocation and no publish. -/
theorem C9_validation_rejects_missing_fields :
    ∀ (w : World) (r : String) (rest : List String)
      (body prompt sid : Json),
      w.jsonLoads r = Except.ok body →
      pyGet body "prompt" Json.null = Except.ok prompt →
      pyGet body "runtimeSessionId" Json.null = Except.ok sid →
      (truthy prompt = false ∨ truthy sid = false) →
      lambda_handler w ⟨some (r :: rest)⟩
        = ⟨[], false, Except.error (PyErr.valueError
            "Missing required fields: prompt and runtimeSessionId")⟩ := by
  intro w r rest body prompt sid hjl hp hs hval
  rw [lambda_handler]
  try dsimp only
  rw [hjl]
  try dsimp only
  rw [hp]
  try dsimp only
  rw [hs]
  try dsimp only
  have hcond : (!truthy prompt || !truthy sid) = true := by
    rcases hval with h | h <;> simp [h]
  rw [if_pos hcond]

/-- C9 witness: a body with no `prompt` field at all is rejected with no
upstream call and no publish. -/
theorem C9_validation_rejects_missing_fields_witness :
    lambda_handler noPromptWorld ⟨some [noPromptBody]⟩
      = ⟨[], false, Except.error (PyErr.valueError
          "Missing required fields: prompt and runtimeSessionId")⟩ :=
  C9_validation_rejects_missing_fields noPromptWorld noPromptBody []
    noPromptBodyJson Json.null (Json.str "abc") rfl rfl rfl (Or.inl rfl)

/-- C10: the handler raises
`ValueError("No SQS records found in event")` when the `Records` list is
absent or empty (nothing invoked, nothing published), and it processes only
the first record — the trace for `r :: rest` equals the trace for `[r]`,
whatever `rest` holds. -/
theorem C10_first_record_only :
    (∀ w : World,
      lambda_handler w ⟨none⟩
        = ⟨[], false,
            Except.error (PyErr.valueError "No SQS records found in event")⟩
      ∧ lambda_handler w ⟨some []⟩
        = ⟨[], false,
            Except.error (PyErr.valueError "No SQS records found in event")⟩)
    ∧ (∀ (w : World) (r : String) (rest : List String),
        lambda_handler w ⟨some (r :: rest)⟩ = lambda_handler w ⟨some [r]⟩) :=
  ⟨fun _ => ⟨rfl, rfl⟩, fun _ _ _ => rfl⟩

/-- C6: a data-prefixed line whose payload fails JSON parsing contributes
zero events and does not abort the stream — the loop's full result
(published steps and final outcome) is identical to the same stream with
the malformed line removed, wherever it is inserted. -/
theorem C6_malformed_line_isolated :
    ∀ (w : World) (ch : String) (sid : Json) (bad m : String)
      (xs ys : List String) (idx : Nat),
      pyStartsWith bad "data: " = true →
      w.jsonLoads (pySliceFrom bad 6) = Except.error m →
      processLines w ch sid idx (xs ++ bad :: ys)
        = processLines w ch sid idx (xs ++ ys) := by
  intro w ch sid bad m xs ys idx h1 h2
  exact processLines_skip_bad w ch sid bad m h1 h2 xs idx ys

/-- C6 witness: inserting `"data: oops"` between two valid content lines
changes nothing. -/
theorem C6_malformed_line_isolated_witness :
    processLines abWorld "chat/s" (Json.str "s") 0
        ([lineA] ++ badLine :: [lineB])
      = processLines abWorld "chat/s" (Json.str "s") 0 ([lineA] ++ [lineB]) :=
  C6_malformed_line_isolated abWorld "chat/s" (Json.str "s") badLine
    "Expecting value" [lineA] [lineB] 0 (by decide) rfl

/-- C7: a stream of N well-formed content-delta lines publishes exactly N
`content` events, in the same relative order as the lines, with clean
stream exhaustion; and every publish call of any relay run carries exactly
one event in its `events` array (batch size 1, never batched across
events). -/
theorem C7_order_preserved_batch_one :
    (∀ (w : World) (ch : String) (sid : Json)
      (ps : List (String × Json)) (idx : Nat),
      (∀ p ∈ ps, pyStartsWith p.1 "data: " = true ∧
         w.jsonLoads (pySliceFrom p.1 6) = Except.ok (deltaRecord p.2)) →
      ((processLines w ch sid idx (ps.map Prod.fst)).1.map Prod.fst
         = ps.map (fun p =>
             ChannelMessage.mk ch [eventDict sid (SemEv.content p.2)]))
      ∧ (processLines w ch sid idx (ps.map Prod.fst)).2 = Except.ok ())
    ∧ (∀ (w : World) (ch : String) (sid : Json) (resp : UpstreamResponse),
        ∀ p ∈ (relay_response w ch sid resp).1, p.1.events.length = 1) :=
  ⟨fun w ch sid ps idx h => processLines_all_deltas w ch sid ps idx h,
   fun w ch sid resp p hp => (relay_response_mem w ch sid resp p hp).2⟩

/-- C7 witness: the two-line stream `lineA, lineB` publishes the `A` and
`B` content events in that order and exhausts cleanly. -/
theorem C7_order_preserved_batch_one_witness :
    ((processLines abWorld "chat/s" (Json.str "s") 0 [lineA, lineB]).1.map
        Prod.fst
      = [ChannelMessage.mk "chat/s"
           [eventDict (Json.str "s") (SemEv.content (Json.str "A"))],
         ChannelMessage.mk "chat/s"
           [eventDict (Json.str "s") (SemEv.content (Json.str "B"))]])
    ∧ (processLines abWorld "chat/s" (Json.str "s") 0 [lineA, lineB]).2
        = Except.ok () :=
  C7_order_preserved_batch_one.1 abWorld "chat/s" (Json.str "s")
    [(lineA, Json.str "A"), (lineB, Json.str "B")] 0 (by
      intro p hp
      simp only [List.mem_cons, List.not_mem_nil, or_false] at hp
      rcases hp with rfl | rfl
      · exact ⟨by decide, rfl⟩
      · exact ⟨by decide, rfl⟩)

/-- C1 counterexample: a valid request answered by a streaming response
with an empty stream reaches the relay and completes normally, yet the
published trace is empty — zero `start` events and zero terminal events,
not the exactly-one of each the claim requires. -/
theorem C1_counterexample :
    lambda_handler emptyStreamWorld okEvent = ⟨[], true, Except.ok ()⟩
    ∧ countType "start" (lambda_handler emptyStreamWorld okEvent).published
        = 0
    ∧ countType "end" (lambda_handler emptyStreamWorld okEvent).published
        = 0 := by
  exact ⟨rfl, rfl, rfl⟩

/-- C1 (amended): the start/terminal bracket exists only on the buffered
path — a buffered run whose body parses publishes exactly
`start`, `content`, `end` in that order (one `start` first, one terminal
`end` last); a streaming run publishes no `start`, `end` or `error` event
at all — every published event is a `content` or `tool_use`. -/
theorem C1_bracket_buffered_only :
    ∀ (w : World) (ch : String) (sid : Json) (resp : UpstreamResponse),
      (pyStrContains resp.contentType "text/event-stream" = true →
        countType "start" (relay_response w ch sid resp).1 = 0
        ∧ countType "end" (relay_response w ch sid resp).1 = 0
        ∧ countType "error" (relay_response w ch sid resp).1 = 0
        ∧ ((relay_response w ch sid resp).1.all
            (fun p => hasType "content" p.1 || hasType "tool_use" p.1))
            = true)
      ∧ (pyStrContains resp.contentType "text/event-stream" = false →
        ∀ d : Json, w.jsonLoads resp.body = Except.ok d →
          (relay_response w ch sid resp).1.map Prod.fst
            = [⟨ch, [startDict sid]⟩, ⟨ch, [bufferedContentDict sid d]⟩,
               ⟨ch, [endDict sid]⟩]) := by
  intro w ch sid resp
  constructor
  · intro hct
    rw [relay_response, if_pos hct]
    have hm := processLines_mem w ch sid resp.lines 0
    refine ⟨?_, ?_, ?_, ?_⟩
    · rw [countType]
      refine List.countP_eq_zero.mpr (fun p hp => ?_)
      obtain ⟨sev, i, rfl⟩ := hm p hp
      simp [(eventDict_types w i ch sid sev).2.1]
    · rw [countType]
      refine List.countP_eq_zero.mpr (fun p hp => ?_)
      obtain ⟨sev, i, rfl⟩ := hm p hp
      simp [(eventDict_types w i ch sid sev).2.2.1]
    · rw [countType]
      refine List.countP_eq_zero.mpr (fun p hp => ?_)
      obtain ⟨sev, i, rfl⟩ := hm p hp
      simp [(eventDict_types w i ch sid sev).2.2.2]
    · refine List.all_eq_true.mpr (fun p hp => ?_)
      obtain ⟨sev, i, rfl⟩ := hm p hp
      exact (eventDict_types w i ch sid sev).1
  · intro hct d hd
    rw [relay_buffered w ch sid resp d hct hd]
    rfl

/-- C1 witness: both sides of the amended statement at concrete runs — the
one-line streaming run publishes only content/tool_use-typed events with
zero start/end/error, and the buffered `{"answer":"hello"}` run publishes
exactly the start/content/end triple. -/
theorem C1_bracket_buffered_only_witness :
    (countType "start"
        (relay_response streamWorld "chat/s" (Json.str "s")
          oneLineStreamResp).1 = 0
      ∧ countType "end"
          (relay_response streamWorld "chat/s" (Json.str "s")
            oneLineStreamResp).1 = 0
      ∧ countType "error"
          (relay_response streamWorld "chat/s" (Json.str "s")
            oneLineStreamResp).1 = 0
      ∧ ((relay_response streamWorld "chat/s" (Json.str "s")
            oneLineStreamResp).1.all
          (fun p => hasType "content" p.1 || hasType "tool_use" p.1))
          = true)
    ∧ (relay_response bufWorld "chat/s" (Json.str "s") bufResp).1.map
        Prod.fst
      = [⟨"chat/s", [startDict (Json.str "s")]⟩,
         ⟨"chat/s", [bufferedContentDict (Json.str "s") bufData]⟩,
         ⟨"chat/s", [endDict (Json.str "s")]⟩] :=
  ⟨(C1_bracket_buffered_only streamWorld "chat/s" (Json.str "s")
      oneLineStreamResp).1 (by decide),
   (C1_bracket_buffered_only bufWorld "chat/s" (Json.str "s") bufResp).2
      (by decide) bufData rfl⟩

/-- C8 counterexample: a buffered (non-event-stream) response whose body is
not valid JSON makes `json.loads` raise before any publish — the run
publishes zero events, not the claimed start/content/end triple. -/
theorem C8_counterexample :
    lambda_handler badBufWorld okEvent
      = ⟨[], true, Except.error (PyErr.jsonDecodeError "Expecting value")⟩ := by
  rfl

/-- C8 (amended): a buffered run whose body parses publishes exactly the
three-event sequence start, content (carrying the full parsed payload),
end; every event of a run for session id `sid` goes to channel
`"chat/" + str(sid)`, which for the 33-character `sid33` is exactly
`"chat/abcdefghijklmnopqrstuvwxyz0123456"`. -/
theorem C8_buffered_triple_and_channel :
    (∀ (w : World) (ch : String) (sid : Json) (resp : UpstreamResponse)
      (d : Json),
      pyStrContains resp.contentType "text/event-stream" = false →
      w.jsonLoads resp.body = Except.ok d →
      (relay_response w ch sid resp).1.map Prod.fst
        = [⟨ch, [startDict sid]⟩, ⟨ch, [bufferedContentDict sid d]⟩,
           ⟨ch, [endDict sid]⟩])
    ∧ channelName (Json.str sid33)
        = "chat/abcdefghijklmnopqrstuvwxyz0123456"
    ∧ (∀ (w : World) (sid : Json),
        ∀ p ∈ (invoke_and_relay w sid).published,
          p.1.channel = channelName sid) := by
  refine ⟨fun w ch sid resp d hct hd => ?_, by decide,
    fun w sid p hp => invoke_and_relay_channel w sid p hp⟩
  rw [relay_buffered w ch sid resp d hct hd]
  rfl

/-- C8 witness: the buffered `{"answer":"hello"}` run at the concrete
world. -/
theorem C8_buffered_triple_and_channel_witness :
    (relay_response bufWorld "chat/s" (Json.str "s") bufResp).1.map Prod.fst
      = [⟨"chat/s", [startDict (Json.str "s")]⟩,
         ⟨"chat/s", [bufferedContentDict (Json.str "s") bufData]⟩,
         ⟨"chat/s", [endDict (Json.str "s")]⟩] :=
  C8_buffered_triple_and_channel.1 bufWorld "chat/s" (Json.str "s") bufResp
    bufData (by decide) rfl

/-- C5 counterexample: the classifier is not total over validly-parsed
JSON records — the well-formed record `{"event": 5}` makes the membership
test `"contentBlockDelta" in event` raise an uncaught `TypeError`, where
the claim requires "no event and never a fault". -/
theorem C5_counterexample :
    classify (Json.obj [("event", Json.num 5)])
      = Except.error (PyErr.typeError "argument of type is not iterable") := by
  rfl

/-- C5 (amended): over records whose traversed fields have the expected
dict shapes the rules apply in priority order — a content-delta record
with a `text` key yields exactly one `ContentDelta` even when the text is
empty; only when `contentBlockDelta` is absent altogether does a
content-block-start with a truthy tool name yield exactly one `ToolUse`
(a falsy name yields nothing, and a present-but-textless
`contentBlockDelta` shadows any `contentBlockStart`); non-objects and
objects without an `event` key yield no event; but records with
unexpected non-dict values in traversed positions raise an uncaught
`TypeError`. -/
theorem C5_classifier_priority_rules :
    (∀ t : Json, classify (deltaRecord t) = Except.ok (some (SemEv.content t)))
    ∧ (∀ n : Json, truthy n = true →
        classify (toolRecord n) = Except.ok (some (SemEv.toolUse n)))
    ∧ (∀ n : Json, truthy n = false →
        classify (toolRecord n) = Except.ok none)
    ∧ (∀ fields : List (String × Json), jlookup fields "event" = none →
        classify (Json.obj fields) = Except.ok none)
    ∧ (∀ v : Json, (∀ fields, v ≠ Json.obj fields) →
        classify v = Except.ok none)
    ∧ (∀ X : Json,
        classify (Json.obj [("event", Json.obj
          [("contentBlockDelta", Json.obj []), ("contentBlockStart", X)])])
          = Except.ok none)
    ∧ classify (Json.obj [("event", Json.num 5)])
        = Except.error (PyErr.typeError "argument of type is not iterable") := by
  refine ⟨fun t => classify_deltaRecord t,
          fun n h => classify_toolRecord n h,
          fun n h => ?_, fun fields h => ?_, fun v h => ?_, fun X => rfl, rfl⟩
  · have hred : classify (toolRecord n)
        = if truthy n = true then Except.ok (some (SemEv.toolUse n))
          else Except.ok none := rfl
    rw [hred, if_neg (by simp [h])]
  · rw [classify]
    try dsimp only
    rw [h]
  · cases v with
    | null => rfl
    | bool b => rfl
    | num n => rfl
    | str s => rfl
    | arr l => rfl
    | obj fields => exact absurd rfl (h fields)

/-- C5 witness: the tool record with name `"kb_search"` classifies to that
`ToolUse`; an empty tool name yields nothing; an object without `event`
and a non-object record yield nothing. -/
theorem C5_classifier_priority_rules_witness :
    classify (toolRecord (Json.str "kb_search"))
        = Except.ok (some (SemEv.toolUse (Json.str "kb_search")))
    ∧ classify (toolRecord (Json.str "")) = Except.ok none
    ∧ classify (Json.obj [("foo", Json.null)]) = Except.ok none
    ∧ classify (Json.arr []) = Except.ok none :=
  ⟨C5_classifier_priority_rules.2.1 (Json.str "kb_search") (by decide),
   C5_classifier_priority_rules.2.2.1 (Json.str "") (by decide),
   C5_classifier_priority_rules.2.2.2.1 [("foo", Json.null)] rfl,
   C5_classifier_priority_rules.2.2.2.2.1 (Json.arr [])
     (fun fields h => Json.noConfusion h)⟩

end StreamingAgent
